import Mathlib

/-
  Verification of the Language-Agnostic Visualization Web App.

  The client component `VisualizationEditor.tsx` is embedded below as pure
  Lean functions over an explicit component-state record.  The backend
  (dispatcher, worker, governor, normalizer) is not present in the sources,
  so those parts are modelled from the specification, as marked on each
  definition.
-/

namespace VizApp

/-- The two languages offered by the language select menu
(`MenuItem value="python"`, `MenuItem value="r"`). -/
inductive Language where
  | python
  | r
deriving DecidableEq

/-- The three visualization families offered by the visualization-type select
menu (`MenuItem value="static" | "interactive" | "3d"`). -/
inductive VizType where
  | static
  | interactive
  | threeD
deriving DecidableEq

/-- The wire string for a language, as the select menu supplies it. -/
def wireLanguage : Language → String
  | .python => "python"
  | .r => "r"

/-- The wire string for a visualization type, as the select menu supplies it. -/
def wireVizType : VizType → String
  | .static => "static"
  | .interactive => "interactive"
  | .threeD => "3d"

/-- The values offered by the Language `Select` menu. -/
def languageMenuValues : List String := ["python", "r"]

/-- The values offered by the Visualization Type `Select` menu. -/
def vizTypeMenuValues : List String := ["static", "interactive", "3d"]

/-- Inverse of `wireLanguage`: how the `as keyof SampleCodes` cast reads the
menu value. -/
def parseLanguage : String → Option Language :=
  fun v =>
    if v = "python" then some .python
    else if v = "r" then some .r
    else none

/-- Inverse of `wireVizType`. -/
def parseVizType : String → Option VizType :=
  fun v =>
    if v = "static" then some .static
    else if v = "interactive" then some .interactive
    else if v = "3d" then some .threeD
    else none

/-- The `SAMPLE_CODES` constant of `VisualizationEditor.tsx`, transcribed
verbatim (apostrophes written as the escape \x27). -/
def SAMPLE_CODES : Language → VizType → String
  | .python, .static =>
      "import numpy as np\n\nx = np.linspace(0, 10, 100)\ny = np.sin(x)\n\nplt.figure(figsize=(10, 6))\nplt.plot(x, y, \x27b-\x27, label=\x27sin(x)\x27)\nplt.title(\x27Static Plot Example\x27)\nplt.xlabel(\x27x\x27)\nplt.ylabel(\x27sin(x)\x27)\nplt.grid(True)\nplt.legend()"
  | .python, .interactive =>
      "import numpy as np\n\nx = np.linspace(0, 10, 100)\ny = np.sin(x)\n\nfig = px.line(x=x, y=y, title=\x27Interactive Plot Example\x27)\nfig.update_layout(\n    xaxis_title=\x27x\x27,\n    yaxis_title=\x27sin(x)\x27,\n    showlegend=True\n)"
  | .python, .threeD =>
      "import numpy as np\n\nx = np.linspace(-5, 5, 50)\ny = np.linspace(-5, 5, 50)\nX, Y = np.meshgrid(x, y)\nZ = np.sin(np.sqrt(X**2 + Y**2))\n\nfig = go.Figure(data=[go.Surface(z=Z, x=x, y=y)])\nfig.update_layout(\n    title=\x273D Surface Plot\x27,\n    scene=dict(\n        xaxis_title=\x27X\x27,\n        yaxis_title=\x27Y\x27,\n        zaxis_title=\x27Z\x27\n    )\n)"
  | .r, .static =>
      "x <- seq(0, 10, length.out = 100)\ny <- sin(x)\ndf <- data.frame(x = x, y = y)\n\np <- ggplot(df, aes(x = x, y = y)) +\n  geom_line(color = \"blue\") +\n  labs(title = \"Static Plot Example\",\n       x = \"x\",\n       y = \"sin(x)\") +\n  theme_minimal()"
  | .r, .interactive =>
      "x <- seq(0, 10, length.out = 100)\ny <- sin(x)\ndf <- data.frame(x = x, y = y)\n\np <- plot_ly(data = df, x = ~x, y = ~y, type = \x27scatter\x27, mode = \x27lines\x27)\np$x$layout <- list(\n  title = \x27Interactive Plot Example\x27,\n  xaxis = list(title = \x27x\x27),\n  yaxis = list(title = \x27sin(x)\x27),\n  width = 800,\n  height = 600\n)"
  | .r, .threeD =>
      "library(plotly)\n\nx <- seq(-5, 5, length.out = 50)\ny <- seq(-5, 5, length.out = 50)\ngrid <- expand.grid(x = x, y = y)\ngrid$z <- sin(sqrt(grid$x^2 + grid$y^2))\n\nz_matrix <- matrix(grid$z, nrow = 50, ncol = 50)\nx_vec <- unique(grid$x)\ny_vec <- unique(grid$y)\n\np <- plot_ly(type = \x27surface\x27,\n            x = x_vec,\n            y = y_vec,\n            z = z_matrix,\n            colorscale = \x27Viridis\x27)\np$x$layout <- list(\n  title = \x273D Surface Plot\x27,\n  scene = list(\n    xaxis = list(title = \x27X\x27),\n    yaxis = list(title = \x27Y\x27),\n    zaxis = list(title = \x27Z\x27)\n  ),\n  width = 800,\n  height = 600\n)"

/-- The React state of `VisualizationEditor`: the seven `useState` hooks. -/
structure ComponentState where
  language : Language
  vizType : VizType
  code : String
  visualization : String
  visualizationType : String
  error : String
  loading : Bool
deriving DecidableEq

/-- Initial component state: `useState('python')`, `useState('static')`,
`useState(SAMPLE_CODES[language][vizType])`, empty strings, `loading = false`. -/
def initialState : ComponentState :=
  { language := .python
    vizType := .static
    code := SAMPLE_CODES .python .static
    visualization := ""
    visualizationType := ""
    error := ""
    loading := false }

/-- `handleLanguageChange`: sets the language and replaces the editor code
with `SAMPLE_CODES[newLanguage][vizType]`. -/
def handleLanguageChange (s : ComponentState) (newLanguage : Language) : ComponentState :=
  { s with language := newLanguage, code := SAMPLE_CODES newLanguage s.vizType }

/-- `handleVizTypeChange`: sets the visualization type and replaces the editor
code with `SAMPLE_CODES[language][newType]`. -/
def handleVizTypeChange (s : ComponentState) (newType : VizType) : ComponentState :=
  { s with vizType := newType, code := SAMPLE_CODES s.language newType }

/-- `handleCodeChange`: updates the code only when the editor passes a
defined value. -/
def handleCodeChange (s : ComponentState) (value : Option String) : ComponentState :=
  match value with
  | some v => { s with code := v }
  | none => s

/-- A UI event the component can receive between generations. -/
inductive UiEvent where
  | selectLanguage (l : Language)
  | selectVizType (v : VizType)
  | editCode (value : Option String)

/-- Dispatch one UI event to its handler. -/
def applyEvent (s : ComponentState) : UiEvent → ComponentState
  | .selectLanguage l => handleLanguageChange s l
  | .selectVizType v => handleVizTypeChange s v
  | .editCode value => handleCodeChange s value

/-- Run a sequence of UI events from a starting state. -/
def runEvents (s : ComponentState) (evts : List UiEvent) : ComponentState :=
  evts.foldl applyEvent s

/-- An HTTP request as the client emits it: method, URL, and the JSON body
as an ordered field list. -/
structure HttpRequest where
  method : String
  url : String
  body : List (String × String)
deriving DecidableEq

/-- The single request built by `generateVisualization`:
`axios.post('http://localhost:8000/generate-visualization',
\x7b code, language, viz_type: vizType \x7d)`. -/
def requestFor (s : ComponentState) : HttpRequest :=
  { method := "POST"
    url := "http://localhost:8000/generate-visualization"
    body := [("code", s.code), ("language", wireLanguage s.language),
             ("viz_type", wireVizType s.vizType)] }

/-- All requests one invocation of `generateVisualization` sends: exactly the
one awaited `axios.post`. -/
def requestsSent (s : ComponentState) : List HttpRequest :=
  [requestFor s]

/-- The `VisualizationResponse` interface: `\x7b type: string; content: string \x7d`. -/
structure VisualizationResponse where
  type : String
  content : String
deriving DecidableEq

/-- Outcome of the awaited POST: a resolved response body, or a thrown error
carrying an optional `response.data.detail` string. -/
inductive PostOutcome where
  | success (resp : VisualizationResponse)
  | failure (detail : Option String)
deriving DecidableEq

/-- The state after the four leading `set` calls of `generateVisualization`:
loading on, error / visualization / visualizationType cleared. -/
def requestInitState (s : ComponentState) : ComponentState :=
  { s with loading := true, error := "", visualization := "", visualizationType := "" }

/-- `generateVisualization`, as a function from the pre-call state and the
POST outcome to the settled post-call state.  The catch branch models
`err.response?.data?.detail || \x27An error occurred\x27`: the JS `||` takes
the fallback when `detail` is absent or the empty string. -/
def generateVisualization (s : ComponentState) (outcome : PostOutcome) : ComponentState :=
  let s1 := requestInitState s
  let s2 :=
    match outcome with
    | .success resp =>
        if resp.type = "image" then
          { s1 with visualizationType := "image", visualization := resp.content }
        else if resp.type = "html" then
          { s1 with visualizationType := "html", visualization := resp.content }
        else
          { s1 with error := "No visualization was generated" }
    | .failure detail =>
        { s1 with error :=
            match detail with
            | some d => if d = "" then "An error occurred" else d
            | none => "An error occurred" }
  { s2 with loading := false }

/-- What the visualization panel renders: an `<img>` with a source URI and alt
text, or an `<iframe>` with a srcDoc and a sandbox attribute. -/
inductive VizView where
  | imgView (src : String) (alt : String)
  | frameView (srcDoc : String) (sandbox : String)
deriving DecidableEq

/-- The JSX `\x7bvisualization && (... visualizationType === \x27image\x27 ?
<img src=...> : <iframe srcDoc=... sandbox=...> ...)\x7d` guard and ternary. -/
def renderVisualization (s : ComponentState) : Option VizView :=
  if s.visualization = "" then none
  else if s.visualizationType = "image" then
    some (.imgView ("data:image/png;base64," ++ s.visualization) "Visualization")
  else
    some (.frameView s.visualization "allow-scripts allow-same-origin allow-popups")

/-- The JSX `\x7berror && <ErrorMessage>...\x7d` guard. -/
def renderError (s : ComponentState) : Option String :=
  if s.error = "" then none else some s.error

/-- Modelled from the spec: the error taxonomy of section 7; the backend that
produces it is not among the sources. -/
inductive FailureKind where
  | ValidationError
  | ExecutionTimeout
  | ResourceExceeded
  | RuntimeError
  | NoOutput
  | OutputTooLarge
  | InternalError
deriving DecidableEq

/-- Modelled from the spec: the two artifact kinds of the ExecutionResult. -/
inductive ArtifactKind where
  | image
  | html
deriving DecidableEq

/-- Modelled from the spec: `ExecutionResult` is a tagged variant, either
`Artifact\x7bkind, content\x7d` or `Failure\x7bkind, message\x7d`. -/
inductive ExecutionResult where
  | Artifact (kind : ArtifactKind) (content : String)
  | Failure (kind : FailureKind) (message : String)
deriving DecidableEq

/-- Whether the result is the success variant. -/
def ExecutionResult.isArtifact : ExecutionResult → Bool
  | .Artifact _ _ => true
  | .Failure _ _ => false

/-- Whether the result is the failure variant. -/
def ExecutionResult.isFailure : ExecutionResult → Bool
  | .Artifact _ _ => false
  | .Failure _ _ => true

/-- Modelled from the spec: an `ExecutionRequest` as the dispatcher receives
it over the wire. -/
structure ExecutionRequest where
  code : String
  language : String
  vizType : String
deriving DecidableEq

/-- Modelled from the spec: the artifact output channel written by the
adapter epilogue — the "no artifact" sentinel, raster image bytes, or a
self-contained HTML document. -/
inductive ArtifactChannel where
  | noArtifactSentinel
  | imageBytes (content : String)
  | htmlDoc (content : String)
deriving DecidableEq

/-- Modelled from the spec: the three channels a worker reports — artifact
channel, diagnostic text, and exit status. -/
structure WorkerOutput where
  channel : ArtifactChannel
  diagnostics : String
  exitCode : Nat
deriving DecidableEq

/-- Modelled from the spec: how one worker run ends.  A forcible termination
(timeout, memory-ceiling breach, or upstream deadline) may leave behind a
half-written artifact channel, carried here so its discarding is explicit. -/
inductive WorkerOutcome where
  | completed (out : WorkerOutput)
  | timedOut (leftover : Option ArtifactChannel)
  | memoryBreach (leftover : Option ArtifactChannel)
  | deadlineFired (leftover : Option ArtifactChannel)
deriving DecidableEq

/-- Modelled from the spec: the configuration surface — per-worker ceilings,
concurrency capacity, artifact and code size bounds. -/
structure GovernorConfig where
  capacity : Nat
  maxArtifactSize : Nat
  maxCodeLength : Nat
  maxDiagnosticLength : Nat
deriving DecidableEq

/-- Modelled from the spec: how many OS processes one dispatch spawned and
how many it reaped before returning. -/
structure ProcessTrace where
  spawned : Nat
  reaped : Nat
deriving DecidableEq

/-- Truncate diagnostic text to a bound. -/
def truncateTo (n : Nat) (s : String) : String :=
  if s.length ≤ n then s else s.take n

/-- Modelled from the spec: dispatcher validation — language and viz_type in
their enumerations, code non-empty and under the maximum length; returns the
validation message on failure. -/
def validateRequest (cfg : GovernorConfig) (req : ExecutionRequest) : Option String :=
  if req.language = "python" ∨ req.language = "r" then
    if req.vizType = "static" ∨ req.vizType = "interactive" ∨ req.vizType = "3d" then
      if req.code = "" then some "Code must not be empty"
      else if req.code.length > cfg.maxCodeLength then some "Code exceeds the maximum length"
      else none
    else some "Unsupported visualization type"
  else some "Unsupported language"

/-- Modelled from the spec: the Output Capture & Normalizer of section 4.5 —
non-zero exit becomes `RuntimeError`, the sentinel becomes `NoOutput` with the
fixed message, oversized artifacts become `OutputTooLarge`, and otherwise the
artifact is tagged by its kind. -/
def normalize (cfg : GovernorConfig) (out : WorkerOutput) : ExecutionResult :=
  if out.exitCode ≠ 0 then
    .Failure .RuntimeError (truncateTo cfg.maxDiagnosticLength out.diagnostics)
  else
    match out.channel with
    | .noArtifactSentinel => .Failure .NoOutput "No visualization was generated"
    | .imageBytes content =>
        if content.length > cfg.maxArtifactSize then
          .Failure .OutputTooLarge "Artifact exceeds the size bound"
        else .Artifact .image content
    | .htmlDoc content =>
        if content.length > cfg.maxArtifactSize then
          .Failure .OutputTooLarge "Artifact exceeds the size bound"
        else .Artifact .html content

/-- Modelled from the spec: the dispatcher pipeline — validate, admit through
the governor, run at most one worker, normalize, and reap the process before
returning.  `liveWorkers` is the governor count at admission; `outcome` is how
the single worker run ends when one is spawned. -/
def dispatch (cfg : GovernorConfig) (liveWorkers : Nat) (req : ExecutionRequest)
    (outcome : WorkerOutcome) : ExecutionResult × ProcessTrace :=
  match validateRequest cfg req with
  | some msg => (.Failure .ValidationError msg, ⟨0, 0⟩)
  | none =>
      if liveWorkers ≥ cfg.capacity then
        (.Failure .ResourceExceeded "Server at capacity", ⟨0, 0⟩)
      else
        let result :=
          match outcome with
          | .completed out => normalize cfg out
          | .timedOut _ => .Failure .ExecutionTimeout "Execution timed out"
          | .memoryBreach _ => .Failure .ResourceExceeded "Memory ceiling exceeded"
          | .deadlineFired _ => .Failure .ExecutionTimeout "Execution timed out"
        (result, ⟨1, 1⟩)

/-- Modelled from the spec: the HTTP status of each failure kind — 4xx for
user-caused failures, 5xx for `InternalError`. -/
def statusOfFailure : FailureKind → Nat
  | .ValidationError => 400
  | .ExecutionTimeout => 408
  | .ResourceExceeded => 429
  | .RuntimeError => 400
  | .NoOutput => 400
  | .OutputTooLarge => 413
  | .InternalError => 500

/-- An HTTP response as the wire contract describes it: a status, the success
fields `type` and `content`, or the failure field `detail`. -/
structure HttpResponse where
  status : Nat
  typeField : Option String
  contentField : Option String
  detailField : Option String
deriving DecidableEq

/-- Modelled from the spec: an `Artifact` becomes a 200 with `type` and
`content`; a `Failure` becomes its taxonomy status with a `detail` string. -/
def toHttpResponse : ExecutionResult → HttpResponse
  | .Artifact kind content =>
      { status := 200
        typeField := some (match kind with | .image => "image" | .html => "html")
        contentField := some content
        detailField := none }
  | .Failure kind msg =>
      { status := statusOfFailure kind
        typeField := none
        contentField := none
        detailField := some msg }

/-- Whether a status code is a 2xx success status. -/
def is2xx (n : Nat) : Bool :=
  decide (200 ≤ n) && decide (n < 300)

/-- An `ExecutionResult` is exactly one of the two variants. -/
theorem executionResult_exclusive (r : ExecutionResult) :
    (r.isArtifact = true ∧ r.isFailure = false) ∨
      (r.isArtifact = false ∧ r.isFailure = true) := by
  cases r <;> simp [ExecutionResult.isArtifact, ExecutionResult.isFailure]

/-- Claim C1: every invocation of generateVisualization sends exactly one HTTP
POST to the /generate-visualization endpoint, whose JSON body has exactly the
three fields code (the current editor text), language, and viz_type, with the
latter two drawn from the wire enumerations. -/
theorem C1_request_contract (s : ComponentState) :
    requestsSent s = [requestFor s] ∧
    (requestsSent s).length = 1 ∧
    (requestFor s).method = "POST" ∧
    (requestFor s).url = "http://localhost:8000" ++ "/generate-visualization" ∧
    (requestFor s).body = [("code", s.code), ("language", wireLanguage s.language),
                          ("viz_type", wireVizType s.vizType)] ∧
    (requestFor s).body.map Prod.fst = ["code", "language", "viz_type"] ∧
    wireLanguage s.language ∈ languageMenuValues ∧
    wireVizType s.vizType ∈ vizTypeMenuValues := by
  refine ⟨rfl, rfl, rfl, ?_, rfl, rfl, ?_, ?_⟩
  · show ("http://localhost:8000/generate-visualization" : String) =
      "http://localhost:8000" ++ "/generate-visualization"
    decide
  · cases s.language <;> decide
  · cases s.vizType <;> decide

/-- Claim C2 (amended): for every success response with non-empty content, the
client renders type "image" as an img whose src is the data URI
data:image/png;base64,content, renders type "html" inside an inline frame via
srcDoc carrying a sandbox attribute, and renders no visualization for any
other response type. -/
theorem C2_success_rendering (s : ComponentState) (resp : VisualizationResponse)
    (hc : resp.content ≠ "") :
    (resp.type = "image" →
      renderVisualization (generateVisualization s (PostOutcome.success resp)) =
        some (VizView.imgView ("data:image/png;base64," ++ resp.content) "Visualization")) ∧
    (resp.type = "html" →
      renderVisualization (generateVisualization s (PostOutcome.success resp)) =
        some (VizView.frameView resp.content "allow-scripts allow-same-origin allow-popups")) ∧
    (resp.type ≠ "image" → resp.type ≠ "html" →
      renderVisualization (generateVisualization s (PostOutcome.success resp)) = none) := by
  obtain ⟨t, c⟩ := resp
  simp only [ne_eq] at hc ⊢
  refine ⟨?_, ?_, ?_⟩
  · rintro rfl
    simp [generateVisualization, requestInitState, renderVisualization, hc]
  · rintro rfl
    simp [generateVisualization, requestInitState, renderVisualization, hc]
  · intro h1 h2
    simp [generateVisualization, requestInitState, renderVisualization, h1, h2]

/-- Witness for C2_success_rendering at a concrete image response. -/
theorem C2_success_rendering_witness :
    ("iVBORw0KGgo=" : String) ≠ "" ∧
    renderVisualization (generateVisualization initialState
        (PostOutcome.success ⟨"image", "iVBORw0KGgo="⟩)) =
      some (VizView.imgView ("data:image/png;base64," ++ "iVBORw0KGgo=") "Visualization") :=
  ⟨by decide,
   (C2_success_rendering initialState ⟨"image", "iVBORw0KGgo="⟩ (by decide)).1 rfl⟩

/-- Counterexample to claim C2 as stated: a success response of type "image"
with empty content renders nothing at all — the visualization guard is falsy —
so no img element with src data:image/png;base64, is produced. -/
theorem C2_counterexample :
    renderVisualization (generateVisualization initialState
        (PostOutcome.success ⟨"image", ""⟩)) = none ∧
    renderVisualization (generateVisualization initialState
        (PostOutcome.success ⟨"image", ""⟩)) ≠
      some (VizView.imgView ("data:image/png;base64," ++ "") "Visualization") := by
  have h0 : renderVisualization (generateVisualization initialState
      (PostOutcome.success ⟨"image", ""⟩)) = none := rfl
  refine ⟨h0, ?_⟩
  rw [h0]
  simp

/-- Claim C3: the component state starts at (python, static) with the matching
sample code, both select menus offer only values that parse into the wire
enumerations, and after any sequence of UI events the state the request is
built from still carries a language in \x7bpython, r\x7d and a viz type in
\x7bstatic, interactive, 3d\x7d, placed in the emitted request body. -/
theorem C3_enumeration_invariant :
    initialState.language = Language.python ∧
    initialState.vizType = VizType.static ∧
    initialState.code = SAMPLE_CODES Language.python VizType.static ∧
    languageMenuValues.map parseLanguage = [some Language.python, some Language.r] ∧
    vizTypeMenuValues.map parseVizType =
      [some VizType.static, some VizType.interactive, some VizType.threeD] ∧
    ∀ evts : List UiEvent,
      wireLanguage (runEvents initialState evts).language ∈ languageMenuValues ∧
      wireVizType (runEvents initialState evts).vizType ∈ vizTypeMenuValues ∧
      ("language", wireLanguage (runEvents initialState evts).language) ∈
        (requestFor (runEvents initialState evts)).body ∧
      ("viz_type", wireVizType (runEvents initialState evts).vizType) ∈
        (requestFor (runEvents initialState evts)).body := by
  refine ⟨rfl, rfl, rfl, by decide, by decide, ?_⟩
  intro evts
  refine ⟨?_, ?_, ?_, ?_⟩
  · cases (runEvents initialState evts).language <;> decide
  · cases (runEvents initialState evts).vizType <;> decide
  · simp [requestFor]
  · simp [requestFor]

/-- Claim C4 (amended): for every failure whose JSON body carries a non-empty
detail string, the client displays exactly that detail string as its error
message; a missing or empty detail falls back to the generic message. -/
theorem C4_detail_displayed (s : ComponentState) (d : String) (hd : d ≠ "") :
    (generateVisualization s (PostOutcome.failure (some d))).error = d ∧
    renderError (generateVisualization s (PostOutcome.failure (some d))) = some d := by
  have h1 : (generateVisualization s (PostOutcome.failure (some d))).error = d := by
    simp [generateVisualization, requestInitState, hd]
  refine ⟨h1, ?_⟩
  simp [renderError, h1, hd]

/-- Witness for C4_detail_displayed at a concrete detail string. -/
theorem C4_detail_displayed_witness :
    ("Execution timed out" : String) ≠ "" ∧
    (generateVisualization initialState
        (PostOutcome.failure (some "Execution timed out"))).error = "Execution timed out" :=
  ⟨by decide, (C4_detail_displayed initialState "Execution timed out" (by decide)).1⟩

/-- Counterexample to claim C4 as stated: a failure response whose body holds
the empty detail string is displayed as the generic fallback, not as the
detail string itself — the JS or-expression treats the empty string as falsy. -/
theorem C4_counterexample :
    (generateVisualization initialState (PostOutcome.failure (some ""))).error =
      "An error occurred" ∧
    ("An error occurred" : String) ≠ "" := ⟨rfl, by decide⟩

/-- Claim C5: a run whose artifact channel holds the no-artifact sentinel
normalizes to Failure\x7bNoOutput, "No visualization was generated"\x7d, which
reaches the wire as a non-2xx response carrying that message in its detail
field; and the client reproduces the same message itself whenever a 2xx
response carries a type that is neither "image" nor "html". -/
theorem C5_no_output (cfg : GovernorConfig) (diag : String) (s : ComponentState)
    (t c : String) (ht1 : t ≠ "image") (ht2 : t ≠ "html") :
    normalize cfg ⟨ArtifactChannel.noArtifactSentinel, diag, 0⟩ =
      ExecutionResult.Failure FailureKind.NoOutput "No visualization was generated" ∧
    is2xx (toHttpResponse (ExecutionResult.Failure FailureKind.NoOutput
      "No visualization was generated")).status = false ∧
    (toHttpResponse (ExecutionResult.Failure FailureKind.NoOutput
      "No visualization was generated")).detailField = some "No visualization was generated" ∧
    (generateVisualization s (PostOutcome.success ⟨t, c⟩)).error =
      "No visualization was generated" := by
  refine ⟨by simp [normalize], by decide, rfl, ?_⟩
  simp [generateVisualization, requestInitState, ht1, ht2]

/-- Witness for C5_no_output at a concrete unrecognized response type. -/
theorem C5_no_output_witness :
    ("text" : String) ≠ "image" ∧ ("text" : String) ≠ "html" ∧
    (generateVisualization initialState (PostOutcome.success ⟨"text", "x"⟩)).error =
      "No visualization was generated" :=
  ⟨by decide, by decide,
   (C5_no_output ⟨4, 1000000, 10000, 2000⟩ "" initialState "text" "x"
     (by decide) (by decide)).2.2.2⟩

/-- Claim C6: every ExecutionRequest yields exactly one ExecutionResult —
exactly one of Artifact or Failure, never both and never neither — while the
dispatch spawns at most one OS process and reaps every process it spawned
before returning the result. -/
theorem C6_exactly_one_result (cfg : GovernorConfig) (live : Nat)
    (req : ExecutionRequest) (outcome : WorkerOutcome) :
    (((dispatch cfg live req outcome).1.isArtifact = true ∧
        (dispatch cfg live req outcome).1.isFailure = false) ∨
      ((dispatch cfg live req outcome).1.isArtifact = false ∧
        (dispatch cfg live req outcome).1.isFailure = true)) ∧
    (dispatch cfg live req outcome).2.spawned ≤ 1 ∧
    (dispatch cfg live req outcome).2.reaped = (dispatch cfg live req outcome).2.spawned := by
  refine ⟨executionResult_exclusive _, ?_, ?_⟩ <;>
    · unfold dispatch
      split
      · simp
      · split <;> simp

/-- Claim C7: a worker forcibly terminated by wall-clock timeout, memory
breach, or an upstream deadline never yields a success result — whatever
half-written artifact it left behind, the dispatch result is a Failure. -/
theorem C7_killed_never_success (cfg : GovernorConfig) (live : Nat)
    (req : ExecutionRequest) (leftover : Option ArtifactChannel) :
    (dispatch cfg live req (WorkerOutcome.timedOut leftover)).1.isFailure = true ∧
    (dispatch cfg live req (WorkerOutcome.memoryBreach leftover)).1.isFailure = true ∧
    (dispatch cfg live req (WorkerOutcome.deadlineFired leftover)).1.isFailure = true := by
  refine ⟨?_, ?_, ?_⟩ <;>
    · unfold dispatch
      split
      · rfl
      · split <;> rfl

/-- Claim C8: generateVisualization clears error, visualization, and
visualizationType before issuing the request, and after any completed call at
most one of the error and visualization states is non-empty. -/
theorem C8_error_viz_exclusive (s : ComponentState) (outcome : PostOutcome) :
    (requestInitState s).error = "" ∧
    (requestInitState s).visualization = "" ∧
    (requestInitState s).visualizationType = "" ∧
    ((generateVisualization s outcome).error = "" ∨
      (generateVisualization s outcome).visualization = "") := by
  refine ⟨rfl, rfl, rfl, ?_⟩
  cases outcome with
  | success resp =>
      by_cases h1 : resp.type = "image"
      · left
        simp [generateVisualization, requestInitState, h1]
      · by_cases h2 : resp.type = "html"
        · left
          simp [generateVisualization, requestInitState, h1, h2]
        · right
          simp [generateVisualization, requestInitState, h1, h2]
  | failure detail =>
      right
      simp [generateVisualization, requestInitState]

/-- Claim C9: changing the language replaces the editor code with
SAMPLE_CODES[newLanguage][vizType], and changing the visualization type
replaces it with SAMPLE_CODES[language][newType], regardless of what the user
had typed. -/
theorem C9_sample_code_replacement (s : ComponentState) (newLanguage : Language)
    (newType : VizType) :
    (handleLanguageChange s newLanguage).code = SAMPLE_CODES newLanguage s.vizType ∧
    (handleLanguageChange s newLanguage).language = newLanguage ∧
    (handleVizTypeChange s newType).code = SAMPLE_CODES s.language newType ∧
    (handleVizTypeChange s newType).vizType = newType :=
  ⟨rfl, rfl, rfl, rfl⟩

/-- Claim C10: when the POST throws without a response.data.detail string the
client displays exactly "An error occurred", and on every outcome the loading
flag ends false so the generate button is re-enabled. -/
theorem C10_fallback_and_loading_reset (s : ComponentState) (outcome : PostOutcome) :
    (generateVisualization s (PostOutcome.failure none)).error = "An error occurred" ∧
    (generateVisualization s outcome).loading = false :=
  ⟨rfl, rfl⟩

end VizApp
